import Mathlib

/-!
Shallow embedding of the SwiftDevBot-Modules repository (Telegram bot plugins)
and proofs about its documented behaviour.

Conventions used throughout:
* SQLite tables are lists of row structures; `AUTOINCREMENT` ids are modelled
  by `nextId` (one more than the maximum id present).
* `ORDER BY timestamp DESC` is modelled by insertion sort on the relation
  `recGE`; SQLite leaves the relative order of equal timestamps unspecified,
  so the model breaks ties deterministically by id (descending), which agrees
  with insertion order because ids autoincrement.
* Wall-clock instants are naturals (seconds); machine floats do not occur in
  any property proved here.
* External collaborators (HTTP endpoints, the `cryptography` library, the
  filesystem) are modelled by explicit parameters or small abstract types,
  each documented at its definition.
-/

/-! ### Python string primitives

`String.trim`, `String.toLower` and `String.replace` are modelled at the
character-list level so that every definition evaluates inside the kernel. -/

/-- Python `str.strip()`: drop leading and trailing whitespace. -/
def pyStrip (s : String) : String :=
  ((s.data.dropWhile Char.isWhitespace).reverse.dropWhile
    Char.isWhitespace).reverse.asString

/-- Python `str.lower()` (ASCII case folding, which covers every key the
modules build). -/
def pyLower (s : String) : String := (s.data.map Char.toLower).asString

/-- Worker for `pyReplace`: `fuel` bounds the scan (one character is consumed
per step, so the input length suffices). -/
def pyReplaceAux (pat rep : List Char) : Nat → List Char → List Char
  | _, [] => []
  | 0, l => l
  | fuel + 1, a :: t =>
    if (a :: t).take pat.length = pat then
      rep ++ pyReplaceAux pat rep fuel (List.drop (pat.length - 1) t)
    else a :: pyReplaceAux pat rep fuel t

/-- Python `str.replace(pat, rep)` for a non-empty `pat` (the only use in the
modules is removing `"/yt"`): replace every non-overlapping occurrence,
scanning left to right. -/
def pyReplace (s pat rep : String) : String :=
  if pat.data.isEmpty then s
  else (pyReplaceAux pat.data rep.data s.data.length s.data).asString

namespace CodeAnalyzer

/-- One row of the `analysis_history` table
(`id INTEGER PRIMARY KEY AUTOINCREMENT, chat_id, code, result, timestamp`). -/
structure HistRow where
  id : Nat
  chat_id : Int
  code : String
  result : String
  timestamp : Nat
deriving DecidableEq, Repr

/-- Recency order used for `ORDER BY timestamp DESC`: `a` is at least as
recent as `b`.  Ties on the timestamp are broken by id (see module header). -/
def recGE (a b : HistRow) : Prop :=
  b.timestamp < a.timestamp ∨ (a.timestamp = b.timestamp ∧ b.id ≤ a.id)

instance : DecidableRel recGE := fun a b => by
  unfold recGE; exact inferInstance

instance : IsTotal HistRow recGE := by
  constructor; intro a b; unfold recGE; omega

instance : IsTrans HistRow recGE := by
  constructor; intro a b c; unfold recGE; omega

/-- Next `AUTOINCREMENT` id for a table state. -/
def nextId (t : List HistRow) : Nat := (t.map (·.id)).foldr max 0 + 1

/-- `INSERT INTO analysis_history (chat_id, code, result) VALUES (?, ?, ?)`
with `timestamp DEFAULT CURRENT_TIMESTAMP` supplied as `now`. -/
def insertRow (t : List HistRow) (c : Int) (code res : String) (now : Nat) :
    List HistRow :=
  t ++ [⟨nextId t, c, code, res, now⟩]

/-- Rows of one chat (`WHERE chat_id = ?`). -/
def rowsForChat (t : List HistRow) (c : Int) : List HistRow :=
  t.filter (fun r => decide (r.chat_id = c))

/-- `ORDER BY timestamp DESC` (most recent first). -/
def sortByRecency (l : List HistRow) : List HistRow := List.insertionSort recGE l

/-- Ids selected by
`SELECT id FROM analysis_history WHERE chat_id = ? ORDER BY timestamp DESC LIMIT ?`. -/
def keepIds (t : List HistRow) (c : Int) (limit : Nat) : List Nat :=
  ((sortByRecency (rowsForChat t c)).take limit).map (·.id)

/-- The cap-enforcement statement of `save_analysis`:
`DELETE FROM analysis_history WHERE chat_id = ? AND id NOT IN (...)`. -/
def pruneChat (t : List HistRow) (c : Int) (limit : Nat) : List HistRow :=
  t.filter (fun r => decide (¬ r.chat_id = c ∨ r.id ∈ keepIds t c limit))

/-- `save_analysis` (code_analyzer/module.py, lines 68-96): insert the new
analysis row, then delete every row of this chat outside the 10 most recent. -/
def save_analysis (t : List HistRow) (c : Int) (code res : String) (now : Nat) :
    List HistRow :=
  pruneChat (insertRow t c code res now) c 10

/-- Row list behind `get_analysis_history` before the column projection:
`... WHERE chat_id = ? ORDER BY timestamp DESC LIMIT 5`. -/
def historyRows (t : List HistRow) (c : Int) : List HistRow :=
  (sortByRecency (rowsForChat t c)).take 5

/-- `get_analysis_history` (lines 98-112):
`SELECT code, result, timestamp ... ORDER BY timestamp DESC LIMIT 5`. -/
def get_analysis_history (t : List HistRow) (c : Int) :
    List (String × String × Nat) :=
  (historyRows t c).map (fun r => (r.code, r.result, r.timestamp))

/-- `clear_analysis_history` (lines 114-141): count this chat's rows; when
positive, delete them all and return the count, else return 0. -/
def clear_analysis_history (t : List HistRow) (c : Int) : Nat × List HistRow :=
  let cnt := (rowsForChat t c).length
  if 0 < cnt then (cnt, t.filter (fun r => decide (¬ r.chat_id = c))) else (0, t)

/-- Replies `clear_analysis_command` can send. -/
inductive ClearReply
  | accessDenied
  | badChatId
  | cleared (n : Nat) (target : Int)
  | alreadyEmpty (target : Int)
deriving DecidableEq, Repr

/-- `clear_analysis_command` (lines 360-391).  The textual argument after the
command is modelled pre-tokenised: `none` = no argument (current chat is the
target), `some none` = an argument `int()` rejects (ValueError reply),
`some (some n)` = a numeric argument `n`. -/
def clear_analysis_command (adminIds : List Int) (userId : Int) (chatId : Int)
    (arg : Option (Option Int)) (t : List HistRow) : ClearReply × List HistRow :=
  if userId ∈ adminIds then
    match arg with
    | some none => (.badChatId, t)
    | some (some n) =>
      let p := clear_analysis_history t n
      if 0 < p.1 then (.cleared p.1 n, p.2) else (.alreadyEmpty n, p.2)
    | none =>
      let p := clear_analysis_history t chatId
      if 0 < p.1 then (.cleared p.1 chatId, p.2) else (.alreadyEmpty chatId, p.2)
  else (.accessDenied, t)

end CodeAnalyzer

namespace GeminiAI

/-- One row of `gemini_conversations`
(`id INTEGER PRIMARY KEY AUTOINCREMENT, chat_id, question, answer, timestamp`). -/
structure ConvRow where
  id : Nat
  chat_id : Int
  question : String
  answer : String
  timestamp : Nat
deriving DecidableEq, Repr

/-- Recency order for conversation rows (`ORDER BY timestamp DESC`, ties by id). -/
def convRecGE (a b : ConvRow) : Prop :=
  b.timestamp < a.timestamp ∨ (a.timestamp = b.timestamp ∧ b.id ≤ a.id)

instance : DecidableRel convRecGE := fun a b => by
  unfold convRecGE; exact inferInstance

instance : IsTotal ConvRow convRecGE := by
  constructor; intro a b; unfold convRecGE; omega

instance : IsTrans ConvRow convRecGE := by
  constructor; intro a b c; unfold convRecGE; omega

/-- Next `AUTOINCREMENT` id. -/
def nextConvId (t : List ConvRow) : Nat := (t.map (·.id)).foldr max 0 + 1

/-- The history write of `ask_gemini` (gemini_ai/module.py, line 187):
`INSERT INTO gemini_conversations (chat_id, question, answer) VALUES (?, ?, ?)`.
No delete statement follows it anywhere in the module: the insert is the whole
effect on the table. -/
def saveConversation (t : List ConvRow) (c : Int) (q a : String) (now : Nat) :
    List ConvRow :=
  t ++ [⟨nextConvId t, c, q, a, now⟩]

/-- Row list behind the history read of `ask_gemini` (line 152):
`SELECT question, answer FROM gemini_conversations WHERE chat_id = ?
ORDER BY timestamp DESC LIMIT 5`, before the column projection. -/
def conversationHistoryRows (t : List ConvRow) (c : Int) : List ConvRow :=
  ((t.filter (fun r => decide (r.chat_id = c))).insertionSort convRecGE).take 5

/-- The history read of `ask_gemini` (line 152), columns `question, answer`. -/
def conversationHistoryQuery (t : List ConvRow) (c : Int) :
    List (String × String) :=
  (conversationHistoryRows t c).map (fun r => (r.question, r.answer))

/-! ### Secret-at-rest handling (`_get_decrypted_key`, `process_api_key`)

The `cryptography` library's Fernet scheme is an external collaborator; it is
modelled by its documented contract: an authenticated symmetric scheme whose
`decrypt` returns the original plaintext for a token produced under the same
key and raises `InvalidToken` for a token produced under another key or for
any string that is not a well-formed token. -/

/-- Fernet keys, abstractly. -/
abbrev FernetKey := Nat

/-- Fernet ciphertexts: a well-formed token records the key that produced it
and the plaintext it authenticates (no ciphertext forged under a different
key decrypts, per the library contract); `garbage` stands for any corrupted
or non-token string. -/
inductive Ciphertext
  | token (k : FernetKey) (payload : String)
  | garbage (junk : String)
deriving DecidableEq, Repr

/-- `fernet.encrypt` (contract model). -/
def fernetEncrypt (k : FernetKey) (s : String) : Ciphertext := .token k s

/-- `fernet.decrypt` (contract model): `none` stands for `InvalidToken`. -/
def fernetDecrypt (k : FernetKey) : Ciphertext → Option String
  | .token k2 p => if k = k2 then some p else none
  | .garbage _ => none

/-- `_get_decrypted_key` (gemini_ai/module.py, lines 115-127).
`fernet` is `kernel_data["encryption_key"]` (absent → `None` returned);
`storedSecret` is `config["module_secrets"]["gemini_ai"]` (absent → `None`);
a decryption failure (`InvalidToken` or any other exception) also returns
`None` instead of raising. -/
def _get_decrypted_key (fernet : Option FernetKey)
    (storedSecret : Option Ciphertext) : Option String :=
  match fernet with
  | none => none
  | some k =>
    match storedSecret with
    | none => none
    | some ct => fernetDecrypt k ct

/-- Outcome of `process_api_key` (lines 286-329) on a text message, reduced to
what it stores: the handler strips the text, rejects keys shorter than 10
characters (staying in the key-entry state), and otherwise stores the Fernet
encryption of the key under `config["module_secrets"]["gemini_ai"]`. -/
def process_api_key (fernet : Option FernetKey) (text : String)
    (stored : Option Ciphertext) : Option Ciphertext :=
  let api_key := pyStrip text
  if api_key.length < 10 then stored
  else
    match fernet with
    | none => stored
    | some k => some (fernetEncrypt k api_key)

/-! ### The Gemini network call (`ask_gemini`, lines 164-205)

The HTTP endpoint is an external collaborator; each attempt's outcome is a
parameter.  Lines 200, 201 and 204 of the source chain `elif`/`else` after a
semicolon on one line — a literal Python `SyntaxError`; the model reads those
chains the only way they parse as intended (as ordinary `if`/`elif`/`else`
chains), which also matches the log messages and string constants around
them. -/

/-- Outcome of one HTTP attempt against the Gemini endpoint. -/
inductive NetAttempt
  /-- HTTP 200.  `jsonOk` = body parsed as JSON; `hasCandidate` = a candidate
  with content parts was present; `answer` = its raw text; `blockReason` = the
  `promptFeedback.blockReason` reported when no candidate exists. -/
  | ok (jsonOk : Bool) (hasCandidate : Bool) (answer : String) (blockReason : String)
  /-- Any non-200 HTTP status code. -/
  | status (code : Nat)
  /-- `asyncio.TimeoutError` (the session timeout is 30 s). -/
  | timeout
  /-- `aiohttp.ClientError`. -/
  | netError
  /-- Any other exception inside the attempt. -/
  | exn
deriving DecidableEq, Repr

/-- `max_retries = 2` (line 171). -/
def maxRetries : Nat := 2

/-- `base_delay = 1.5` seconds, in tenths of a second (line 171). -/
def baseDelayTenths : Nat := 15

/-- Result of the request loop: the returned reply string, the sleeps taken
between attempts (tenths of a second), and how many attempts were made. -/
structure NetResult where
  reply : String
  delays : List Nat
  attempts : Nat
  /-- `true` exactly on the HTTP-200, JSON-ok, candidate-present branch — the
  only branch that stores the answer in the database (lines 185-188). -/
  ok : Bool
deriving DecidableEq, Repr

/-- Header prepended before caching (line 184). -/
def answerHeader (formatted : String) : String :=
  "<b>🤖 SwiftDevBot:</b>\n\n" ++ formatted

/-- Error message chosen for a non-retried (or final-attempt) HTTP status
(lines 199-200). -/
def statusErrorMsg (code : Nat) : String :=
  if code = 400 then "❌ Ошибка запроса (API ключ?)."
  else if code = 429 then "❌ Лимит запросов."
  else if 500 ≤ code then "❌ Ошибка сервера ИИ."
  else "❌ Ошибка ИИ."

/-- The retry loop of `ask_gemini` (lines 172-205).  `attempt` is the loop
index, `fuel` the remaining iterations (`maxRetries - attempt`), `net` the
outcome of each attempt by index.  `formatResponse` stands for
`format_response`; its output only feeds the reply string. -/
def geminiRequestLoop (net : Nat → NetAttempt) (formatResponse : String → String) :
    Nat → Nat → NetResult
  | 0, _ => ⟨"❌ ИИ не отвечает после нескольких попыток.", [], 0, false⟩
  | fuel + 1, attempt =>
    let retryWith (delay : Nat) (ifLast : String) : NetResult :=
      if attempt < maxRetries - 1 then
        let r := geminiRequestLoop net formatResponse fuel (attempt + 1)
        ⟨r.reply, delay :: r.delays, r.attempts + 1, r.ok⟩
      else ⟨ifLast, [], 1, false⟩
    match net attempt with
    | .ok jsonOk hasCandidate answer blockReason =>
      if jsonOk then
        if hasCandidate then
          ⟨answerHeader (formatResponse answer), [], 1, true⟩
        else ⟨"❌ Ответ не сгенерирован (Фильтр: " ++ blockReason ++ ").", [], 1, false⟩
      else ⟨"❌ Ошибка обработки ответа ИИ.", [], 1, false⟩
    | .status code =>
      if (code = 429 ∨ code = 500 ∨ code = 503) ∧ attempt < maxRetries - 1 then
        let r := geminiRequestLoop net formatResponse fuel (attempt + 1)
        ⟨r.reply, baseDelayTenths * 2 ^ attempt :: r.delays, r.attempts + 1, r.ok⟩
      else ⟨statusErrorMsg code, [], 1, false⟩
    | .timeout => retryWith baseDelayTenths "❌ ИИ не ответил вовремя."
    | .netError => retryWith baseDelayTenths "❌ Ошибка сети ИИ."
    | .exn => retryWith baseDelayTenths "❌ Внутренняя ошибка ИИ."

/-- The whole network section of `ask_gemini`: run the loop from attempt 0. -/
def geminiRequest (net : Nat → NetAttempt) (formatResponse : String → String) :
    NetResult :=
  geminiRequestLoop net formatResponse maxRetries 0

/-! ### `ask_gemini` end to end (lines 130-205) -/

/-- The module's tables touched by `ask_gemini` (all in the shared SQLite
database): `gemini_cache (question TEXT PRIMARY KEY, answer)`,
`gemini_settings (chat_id PRIMARY KEY, mode DEFAULT 'friendly')` and
`gemini_conversations`. -/
structure GeminiDB where
  cache : List (String × String)
  settings : List (Int × String)
  conversations : List ConvRow
deriving DecidableEq, Repr

/-- `INSERT OR REPLACE INTO gemini_cache (question, answer)` (line 186). -/
def cacheUpsert (cache : List (String × String)) (q a : String) :
    List (String × String) :=
  (q, a) :: cache.filter (fun p => decide (¬ p.1 = q))

/-- `re.sub('<[^>]*>', '', a)` applied to stored answers when building the
history context (line 154): drop every `<...>` run. -/
def stripTags (s : String) : String :=
  (go s.data false).asString
where
  go : List Char → Bool → List Char
    | [], _ => []
    | c :: cs, inTag =>
      if inTag then go cs (¬ c = '>')
      else if c = '<' then go cs true
      else c :: go cs false

/-- `mode_prompts.get(mode, mode_prompts['friendly'])` (line 160). -/
def modePrompt (mode : String) : String :=
  if mode = "formal" then "Отвечай формально..."
  else if mode = "sarcastic" then "Отвечай с сарказмом..."
  else "Отвечай дружелюбно..."

/-- The history context string (line 154): the 5 most recent exchanges, in
chronological order (`reversed(history)`), rendered `User:`/`AI:`. -/
def historyContext (t : List ConvRow) (chat : Int) : String :=
  String.intercalate "\n"
    (((conversationHistoryQuery t chat).reverse).map
      (fun p => "User: " ++ p.1 ++ "\nAI: " ++ stripTags p.2))

/-- The prompt (line 161). -/
def buildPrompt (projectContext mode hist question : String) : String :=
  pyStrip (projectContext ++ "\n\nТы — SwiftDevBot...\nСтиль: " ++ modePrompt mode ++
    "\n\nДиалог:\n" ++ hist ++ "\n\n---\nВопрос:\n" ++ question)

/-- Result of `ask_gemini`: reply string, database after the call, and the
number of HTTP attempts issued against the Gemini endpoint. -/
structure AskResult where
  reply : String
  db : GeminiDB
  netAttempts : Nat
deriving DecidableEq, Repr

/-- `ask_gemini` (lines 130-205).  `keyOk` is whether `_get_decrypted_key`
returned a key; `net` and `formatResponse` parameterise the HTTP endpoint and
`format_response`; `now` timestamps the conversation insert.  Control flow:
key check, then cache lookup on the question text alone (line 141), then
settings/history reads, prompt build, and the retried HTTP call; only the
successful branch writes the cache and conversation rows (lines 185-188). -/
def ask_gemini (keyOk : Bool) (db : GeminiDB) (question : String) (chat : Int)
    (net : Nat → NetAttempt) (formatResponse : String → String)
    (projectContext : String) (now : Nat) : AskResult :=
  if ¬ keyOk then
    ⟨"❌ Ошибка: API ключ Gemini не настроен или не может быть дешифрован. Установите через /sysconf.",
      db, 0⟩
  else
    match db.cache.lookup question with
    | some cached => ⟨cached, db, 0⟩
    | none =>
      let mode := (db.settings.lookup chat).getD "friendly"
      let hist := historyContext db.conversations chat
      let _prompt := buildPrompt projectContext mode hist question
      let r := geminiRequest net formatResponse
      if r.ok then
        ⟨r.reply,
          { db with
            cache := cacheUpsert db.cache question r.reply,
            conversations := saveConversation db.conversations chat question r.reply now },
          r.attempts⟩
      else ⟨r.reply, db, r.attempts⟩

/-! ### `handle_message` and the rate limiter (lines 208-227)

Lines 217-220 of the source are valid Python and read:

    if last_req_data: last_req_time = datetime.fromisoformat(...);
    if (now - last_req_time) < timedelta(seconds=rate_limit_seconds): ...

The assignment to `last_req_time` is guarded by `if last_req_data:`, but the
comparison on the next line is a separate statement that always runs; when no
row exists for the chat, `last_req_time` is unbound and the comparison raises
`UnboundLocalError`, which the `except (aiosqlite.Error, ValueError)` clause
does not catch, so the handler aborts.  Stored timestamps are modelled as
integer seconds (the `fromisoformat` ValueError path, which IS caught and
falls through to the call, is not reachable for values the module itself
wrote). -/

/-- `rate_limit_seconds = 5` (line 215). -/
def rate_limit_seconds : Int := 5

/-- Observable outcome of one `handle_message` run. -/
inductive HMOutcome
  /-- `UnboundLocalError` escaped the handler: no reply was sent, no external
  call was made, and no timestamp was written. -/
  | unboundLocalError
  /-- Replied "⏳ Подожди 5 сек." and returned: no external call, no write. -/
  | tooFast
  /-- Called `ask_gemini`, replied with its answer, then wrote the timestamp. -/
  | answered (reply : String)
deriving DecidableEq, Repr

/-- State touched by `handle_message`: the `gemini_rate_limit` table
(`chat_id PRIMARY KEY, last_request`) plus the `ask_gemini` tables. -/
structure HMState where
  rateLimit : List (Int × Int)
  db : GeminiDB
deriving DecidableEq, Repr

/-- `INSERT OR REPLACE INTO gemini_rate_limit (chat_id, last_request)`
(line 225). -/
def rateLimitUpsert (rl : List (Int × Int)) (chat : Int) (now : Int) :
    List (Int × Int) :=
  (chat, now) :: rl.filter (fun p => decide (¬ p.1 = chat))

/-- `handle_message` (lines 208-227), for a private-chat text message that
reaches the handler.  Returns the outcome, the new state, and the number of
HTTP attempts issued. -/
def handle_message (st : HMState) (chat : Int) (question : String) (now : Int)
    (keyOk : Bool) (net : Nat → NetAttempt) (formatResponse : String → String)
    (projectContext : String) : HMOutcome × HMState × Nat :=
  match st.rateLimit.lookup chat with
  | none => (.unboundLocalError, st, 0)
  | some last =>
    if now - last < rate_limit_seconds then (.tooFast, st, 0)
    else
      let r := ask_gemini keyOk st.db question chat net formatResponse
        projectContext now.toNat
      (.answered r.reply,
        { rateLimit := rateLimitUpsert st.rateLimit chat now, db := r.db },
        r.netAttempts)

end GeminiAI

namespace Weather

/-- Does the character list `sub` occur at the start of `l`? -/
def leadsWith : List Char → List Char → Bool
  | [], _ => true
  | _ :: _, [] => false
  | a :: as, b :: bs => a == b && leadsWith as bs

/-- Does the character list `sub` occur anywhere inside `l`? -/
def hasSub (sub l : List Char) : Bool :=
  match l with
  | [] => sub.isEmpty
  | _ :: t => leadsWith sub l || hasSub sub t

/-- `sub` occurs as a contiguous substring of `s` (used to state the
"message contains the literal substring" scenarios). -/
def strContains (s sub : String) : Bool := hasSub sub.data s.data

/-- Weather API responses and cached payloads, as flat string dictionaries.
The OpenWeatherMap response nests `temp` etc. under `current` and the
description under `weather[0]`; the model flattens that nesting (no claim
distinguishes it) and keeps the module's own top-level keys (`error`,
`city_name`) as written. -/
abbrev WDict := List (String × String)

/-- Python `key in dict` / `"error" in data`. -/
def hasKey (d : WDict) (k : String) : Bool := (d.lookup k).isSome

/-- Python `dict[key] = value` (replaces any existing binding). -/
def dictSet (d : WDict) (k v : String) : WDict :=
  (k, v) :: d.filter (fun p => decide (¬ p.1 = k))

/-- One entry of the module-level `CACHE` dictionary (weather/module.py,
lines 218, 235-241): the stored payload and its `time.time()` stamp. -/
structure CacheEntry where
  data : WDict
  timestamp : Nat
deriving DecidableEq, Repr

/-- The module-level `CACHE` dictionary. -/
abbrev WCache := List (String × CacheEntry)

/-- `CACHE_LIFETIME = 1800` seconds (line 219). -/
def CACHE_LIFETIME : Nat := 1800

/-- `get_cache_key` (lines 221-223): lower-cased city plus forecast type. -/
def get_cache_key (city ftype : String) : String := pyLower city ++ ":" ++ ftype

/-- `get_cached_weather` (lines 225-233): return the stored payload when the
entry exists and its age is strictly below `CACHE_LIFETIME`, else `None`.
`now - timestamp` truncates at 0 exactly where Python's real subtraction
would be negative, and both sides then count as fresh. -/
def get_cached_weather (cache : WCache) (now : Nat) (city ftype : String) :
    Option WDict :=
  match cache.lookup (get_cache_key city ftype) with
  | some e => if now - e.timestamp < CACHE_LIFETIME then some e.data else none
  | none => none

/-- `set_cached_weather` (lines 235-241): `CACHE[key] = {"data": ..,
"timestamp": time.time()}`. -/
def set_cached_weather (cache : WCache) (now : Nat) (city : String)
    (data : WDict) (ftype : String) : WCache :=
  (get_cache_key city ftype, ⟨data, now⟩) ::
    cache.filter (fun p => decide (¬ p.1 = get_cache_key city ftype))

/-- `get_current_weather` (lines 404-445).  The two external calls — the
geocoding request and the one-call request — are parameters: `geocode` is
`get_city_coordinates`' result, `fetched` the body the one-call endpoint
would return.  Returns the payload dictionary (an `error` dictionary on
failure, as in the source), the cache afterwards, and the number of API
requests issued. -/
def get_current_weather (geocode : Option (Int × Int × String))
    (fetched : WDict) (cache : WCache) (now : Nat) (city : String) :
    WDict × WCache × Nat :=
  match get_cached_weather cache now city "current" with
  | some d =>
    if d.isEmpty then goFetch else (d, cache, 0)
  | none => goFetch
where
  goFetch : WDict × WCache × Nat :=
    match geocode with
    | none => ([("error", "Город " ++ city ++ " не найден")], cache, 1)
    | some g =>
      if hasKey fetched "error" then (fetched, cache, 2)
      else
        let data := dictSet fetched "city_name" g.2.2
        (data, set_cached_weather cache now city data "current", 2)

/-- Replies `weather_command` can produce (lines 548-586). -/
inductive WReply
  | disabled
  | noAccess
  | apiKeyPrompt
  | welcomeMenu
deriving DecidableEq, Repr

/-- The literal texts behind `WReply` (russian `get_text` strings with
`name`/`version` interpolated, as the handler sends them). -/
def replyText : WReply → String
  | .disabled => "⛔ Модуль Прогноз погоды отключён."
  | .noAccess => "⛔ У вас нет доступа к Прогноз погоды."
  | .apiKeyPrompt =>
      "🌤️ <b>API ключ не настроен!</b>\nДля работы модуля необходимо указать API ключ OpenWeatherMap.\nПолучите бесплатный ключ на https://openweathermap.org и настройте его."
  | .welcomeMenu =>
      "🌤️ Добро пожаловать в Прогноз погоды v1.0.0!\nВыберите действие или введите название города для получения прогноза:"

/-- `check_permissions` (lines 356-360): everyone passes unless
`admin_only`. -/
def check_permissions (adminIds : List Int) (userId : Int) (adminOnly : Bool) :
    Bool :=
  if adminOnly then decide (userId ∈ adminIds) else true

/-- `weather_command` (lines 548-586).  `text` is the full message text; the
handler never reads it past the command match — no inline-argument parsing
exists — so the parameter is unused. -/
def weather_command (enabled : Bool) (adminIds : List Int) (userId : Int)
    (apiKey : String) (_text : String) : WReply :=
  if ¬ enabled then .disabled
  else if ¬ check_permissions adminIds userId false then .noAccess
  else if apiKey = "" then .apiKeyPrompt
  else .welcomeMenu

/-- `format_weather_message` (lines 489-545), `forecast_type == "current"`
branch, for metric units.  `updatedAt` renders `datetime.now().strftime`. -/
def format_weather_message (data : WDict) (updatedAt : String) : String :=
  if hasKey data "error" then
    "❌ Ошибка: " ++ (data.lookup "error").getD ""
  else
    let cityName := (data.lookup "city_name").getD ""
    let temp := (data.lookup "temp").getD "0"
    let feels := (data.lookup "feels_like").getD "0"
    let humidity := (data.lookup "humidity").getD "0"
    let pressure := (data.lookup "pressure").getD "0"
    let wind := (data.lookup "wind_speed").getD "0"
    let desc := (data.lookup "description").getD ""
    "🌤️ <b>Погода в " ++ cityName ++ "</b>\n" ++
    "═════════════════════\n" ++
    "🌡️ <b>Температура:</b> " ++ temp ++ "°C (ощущается как " ++ feels ++ "°C)\n" ++
    "☁️ <b>Состояние:</b> " ++ desc ++ "\n" ++
    "💧 <b>Влажность:</b> " ++ humidity ++ "%\n" ++
    "🌬️ <b>Ветер:</b> " ++ wind ++ " м/с\n" ++
    "🔵 <b>Давление:</b> " ++ pressure ++ " гПа\n" ++
    "🕒 <b>Обновлено:</b> " ++ updatedAt

/-- Replies of `process_weather_message` (lines 588-615), the handler that
receives a city name as a plain message while the module menu is open. -/
inductive PWReply
  | notFound (city : String)
  | weatherReport (message : String)
deriving DecidableEq, Repr

/-- `process_weather_message` (lines 588-615): fetch the weather for the
message text, answer `not_found` on an error payload, else the formatted
current-weather message. -/
def process_weather_message (geocode : Option (Int × Int × String))
    (fetched : WDict) (cache : WCache) (now : Nat) (cityText : String)
    (updatedAt : String) : PWReply × WCache :=
  let city := pyStrip cityText
  let r := get_current_weather geocode fetched cache now city
  if hasKey r.1 "error" then (.notFound city, r.2.1)
  else (.weatherReport (format_weather_message r.1 updatedAt), r.2.1)

/-- `get_user_city` (lines 155-161): the stored per-user default city, with
the literal fallback `"Москва"` when the user has none. -/
def get_user_city (userPrefs : List (Int × String)) (userId : Int) : String :=
  (userPrefs.lookup userId).getD "Москва"

end Weather

namespace Yt

/-- The FSM as seen by this module: idle, or `YoutubeStates.waiting_for_url`
(yt/module.py, lines 19-20). -/
inductive YtState
  | idle
  | waitingForUrl
deriving DecidableEq, Repr

/-- Replies of `/yt` and its waiting-state handler. -/
inductive YtReply
  | notInitialized
  | dbUnavailable
  /-- "📹 Пожалуйста, укажите URL для скачивания ..." -/
  | promptUrl
  /-- "📹 Пожалуйста, укажите корректный URL:" -/
  | promptCorrectUrl
  /-- `process_url`: the format-choice keyboard for this URL. -/
  | chooseFormat (url : String)
deriving DecidableEq, Repr

/-- `process_url` (lines 264-279): show the format keyboard and
`state.clear()`. -/
def process_url (url : String) : YtReply × YtState := (.chooseFormat url, .idle)

/-- `yt_command` (lines 236-253).  `args` is the message text with every
occurrence of `"/yt"` removed, stripped.  With arguments the URL is processed
directly (ending idle); without, the handler prompts and enters
`waiting_for_url`. -/
def yt_command (kernelOk dbOk : Bool) (text : String) (st : YtState) :
    YtReply × YtState :=
  if ¬ kernelOk then (.notInitialized, st)
  else if ¬ dbOk then (.dbUnavailable, st)
  else
    let args := pyStrip (pyReplace text "/yt" "")
    if args = "" then (.promptUrl, .waitingForUrl)
    else process_url args

/-- `process_url_input` (lines 255-262), registered on
`YoutubeStates.waiting_for_url`: re-prompt while the stripped text is empty,
else process the URL (which clears the state). -/
def process_url_input (text : String) : YtReply × YtState :=
  let url := pyStrip text
  if url = "" then (.promptCorrectUrl, .waitingForUrl)
  else process_url url

end Yt

namespace ModuleManager

/-- What the module's source location turns out to hold, branch by branch of
`_install_module` (module_manager/module.py, lines 1006-1092).  For a
`file://` repository: whether the source directory exists, whether the copy
loop raises, and which expected files end up present.  For a remote
repository: the HTTP status of the archive download, whether
download/extract raises, and the files present after extraction. -/
inductive RepoSource
  | localRepo (srcDirExists : Bool) (copyRaises : Bool)
      (hasModulePy : Bool) (hasManifest : Bool)
  | remoteRepo (httpStatus : Nat) (extractRaises : Bool)
      (hasModulePy : Bool) (hasManifest : Bool)
deriving DecidableEq, Repr

/-- Result of `_install_module`: the returned `(успех, сообщение)` pair plus
whether `modules/<name>` exists once the call returns. -/
structure InstallOutcome where
  ok : Bool
  msg : String
  dirExistsAfter : Bool
deriving DecidableEq, Repr

/-- `_install_module` (lines 1006-1092).  `name?`/`url?` are
`module.get('name')` / `module.get('repository_url')` (`none` models a
missing or falsy value); `dirExistedBefore` is `module_dir.exists()` at
entry; `exnMsg` is `str(e)` for whichever exception a raising branch throws.
`module_dir.mkdir(parents=True, exist_ok=True)` runs before any copy or
download, so from that point the directory exists unless a branch removes
it: the `except` handler and the expected-files check call
`shutil.rmtree`, but the early `return False` statements inside the `try`
(source not found in the local repository, line 1043; non-200 download,
line 1068) do not. -/
def _install_module (name? url? : Option String) (dirExistedBefore : Bool)
    (src : RepoSource) (exnMsg : String) : InstallOutcome :=
  match name? with
  | none => ⟨false, "Имя модуля не указано", dirExistedBefore⟩
  | some name =>
    match url? with
    | none => ⟨false, "URL репозитория не указан", dirExistedBefore⟩
    | some _ =>
      if dirExistedBefore then ⟨false, "Модуль " ++ name ++ " уже установлен", true⟩
      else
        match src with
        | .localRepo srcDirExists copyRaises hasM hasMf =>
          if ¬ srcDirExists then
            ⟨false, "Модуль " ++ name ++ " не найден в локальном репозитории", true⟩
          else if copyRaises then ⟨false, exnMsg, false⟩
          else if ¬ (hasM ∧ hasMf) then
            ⟨false, "Установленный модуль не содержит необходимых файлов", false⟩
          else ⟨true, "", true⟩
        | .remoteRepo status extractRaises hasM hasMf =>
          if ¬ status = 200 then
            ⟨false, "Ошибка при скачивании модуля: HTTP " ++ toString status, true⟩
          else if extractRaises then ⟨false, exnMsg, false⟩
          else if ¬ (hasM ∧ hasMf) then
            ⟨false, "Установленный модуль не содержит необходимых файлов", false⟩
          else ⟨true, "", true⟩

end ModuleManager

/-! ## Helper lemmas -/

namespace CodeAnalyzer

theorem le_foldr_max {l : List Nat} {x : Nat} (hx : x ∈ l) :
    x ≤ l.foldr max 0 := by
  induction l with
  | nil => cases hx
  | cons a l ih =>
    rcases List.mem_cons.1 hx with h | h
    · subst h; exact Nat.le_max_left _ _
    · exact le_trans (ih h) (Nat.le_max_right _ _)

theorem nodup_ids_insertRow {t : List HistRow} {c : Int} {code res : String}
    {now : Nat} (h : (t.map (·.id)).Nodup) :
    ((insertRow t c code res now).map (·.id)).Nodup := by
  unfold insertRow
  rw [List.map_append]
  refine h.append (List.nodup_singleton _) ?_
  intro x hx hx2
  simp only [List.map_cons, List.map_nil, List.mem_singleton] at hx2
  subst hx2
  have h2 := le_foldr_max hx
  simp only [nextId] at h2
  omega

theorem pruneChat_cap (t : List HistRow) (c : Int) (limit : Nat)
    (h : (t.map (·.id)).Nodup) :
    ((pruneChat t c limit).filter (fun r => decide (r.chat_id = c))).length
      ≤ limit := by
  classical
  set s := (pruneChat t c limit).filter (fun r => decide (r.chat_id = c)) with hs
  have hsub : s.map (·.id) ⊆ keepIds t c limit := by
    intro x hx
    rcases List.mem_map.1 hx with ⟨r, hr, rfl⟩
    have h1 := List.mem_filter.1 hr
    have hc : r.chat_id = c := of_decide_eq_true h1.2
    have h2 := List.mem_filter.1 h1.1
    have hd : ¬ r.chat_id = c ∨ r.id ∈ keepIds t c limit :=
      of_decide_eq_true h2.2
    rcases hd with hd | hd
    · exact absurd hc hd
    · exact hd
  have hsl : List.Sublist s t := by
    have h1 : List.Sublist s (pruneChat t c limit) := List.filter_sublist _
    have h2 : List.Sublist (pruneChat t c limit) t := List.filter_sublist _
    exact h1.trans h2
  have hnd : (s.map (·.id)).Nodup := h.sublist (hsl.map _)
  have hle := (List.subperm_of_subset hnd hsub).length_le
  rw [List.length_map] at hle
  refine le_trans hle ?_
  unfold keepIds
  rw [List.length_map]
  exact List.length_take_le _ _

theorem historyRows_sorted (t : List HistRow) (c : Int) :
    (historyRows t c).Pairwise recGE := by
  unfold historyRows
  exact (List.sorted_insertionSort recGE _).sublist (List.take_sublist _ _)

end CodeAnalyzer

namespace GeminiAI

theorem conversationHistoryRows_sorted (t : List ConvRow) (c : Int) :
    (conversationHistoryRows t c).Pairwise convRecGE := by
  unfold conversationHistoryRows
  exact (List.sorted_insertionSort convRecGE _).sublist (List.take_sublist _ _)

/-- `handle_message` iterated from an empty `gemini_conversations` table:
each round stores one exchange via `saveConversation` exactly as `ask_gemini`
does after a successful call. -/
def geminiSaveIter (n : Nat) : List ConvRow :=
  (List.range n).foldl (fun acc i => saveConversation acc 0 "q" "a" i) []

end GeminiAI

/-! ## C1 — history caps -/

/-- C1 counterexample.  The claim asserts that each insert into
`gemini_conversations` is immediately followed by a cap-enforcement delete
leaving at most the configured cap (5 or 10) rows for the chat.  `ask_gemini`
issues no such delete (gemini_ai/module.py, lines 185-191): starting from an
empty table, eleven insert-"plus-delete" sequences for chat 0 leave eleven
rows for that chat, exceeding both candidate caps. -/
theorem gemini_history_cap_cex :
    ¬ (((GeminiAI.geminiSaveIter 11).filter
        (fun r => decide (r.chat_id = (0 : Int)))).length ≤ 10) := by decide

/-- C1 (amended): `save_analysis` in code_analyzer does follow its insert
with a cap delete, leaving at most 10 `analysis_history` rows per chat (given
the primary-key invariant that ids are distinct), and its history query
returns at most 5 rows most-recent-first; `ask_gemini` in gemini_ai performs
no delete after inserting into `gemini_conversations` — every insert grows
the table by one row — and bounds only the history READ, which returns at
most 5 rows most-recent-first. -/
theorem history_cap_amended :
    (∀ (t : List CodeAnalyzer.HistRow) (c : Int) (code res : String) (now : Nat),
        (t.map (·.id)).Nodup →
        ((CodeAnalyzer.save_analysis t c code res now).filter
          (fun r => decide (r.chat_id = c))).length ≤ 10)
  ∧ (∀ (t : List CodeAnalyzer.HistRow) (c : Int),
        (CodeAnalyzer.get_analysis_history t c).length ≤ 5
      ∧ (CodeAnalyzer.get_analysis_history t c).Pairwise
          (fun x y => y.2.2 ≤ x.2.2))
  ∧ (∀ (t : List GeminiAI.ConvRow) (c : Int) (q a : String) (now : Nat),
        (GeminiAI.saveConversation t c q a now).length = t.length + 1)
  ∧ (∀ (t : List GeminiAI.ConvRow) (c : Int),
        (GeminiAI.conversationHistoryQuery t c).length ≤ 5
      ∧ (GeminiAI.conversationHistoryRows t c).Pairwise GeminiAI.convRecGE) := by
  refine ⟨?_, ?_, ?_, ?_⟩
  · intro t c code res now h
    exact CodeAnalyzer.pruneChat_cap _ c 10 (CodeAnalyzer.nodup_ids_insertRow h)
  · intro t c
    constructor
    · unfold CodeAnalyzer.get_analysis_history CodeAnalyzer.historyRows
      rw [List.length_map]
      exact List.length_take_le _ _
    · unfold CodeAnalyzer.get_analysis_history
      refine List.pairwise_map.2 ?_
      refine (CodeAnalyzer.historyRows_sorted t c).imp ?_
      intro a b hab
      show b.timestamp ≤ a.timestamp
      unfold CodeAnalyzer.recGE at hab
      omega
  · intro t c q a now
    unfold GeminiAI.saveConversation
    simp
  · intro t c
    constructor
    · unfold GeminiAI.conversationHistoryQuery GeminiAI.conversationHistoryRows
      rw [List.length_map]
      exact List.length_take_le _ _
    · exact GeminiAI.conversationHistoryRows_sorted t c

/-- C1 witness: the amended theorem applied at a concrete input, its
primary-key hypothesis discharged by evaluation. -/
theorem history_cap_amended_witness :
    (([⟨1, 7, "x", "y", 0⟩] : List CodeAnalyzer.HistRow).map (·.id)).Nodup
  ∧ ((CodeAnalyzer.save_analysis [⟨1, 7, "x", "y", 0⟩] 7 "c" "r" 3).filter
      (fun r => decide (r.chat_id = (7 : Int)))).length ≤ 10 :=
  ⟨by decide, history_cap_amended.1 [⟨1, 7, "x", "y", 0⟩] 7 "c" "r" 3 (by decide)⟩

/-! ## C7 — `/clear_analysis` access control and deletion scope -/

namespace CodeAnalyzer

theorem filter_ne_then_eq {t : List HistRow} {target d : Int} (hd : ¬ d = target) :
    (t.filter (fun r => decide (¬ r.chat_id = target))).filter
      (fun r => decide (r.chat_id = d))
    = t.filter (fun r => decide (r.chat_id = d)) := by
  rw [List.filter_filter]
  refine List.filter_congr ?_
  intro r _
  by_cases h : r.chat_id = d
  · simp [h, hd]
  · simp [h]

theorem filter_ne_then_self {t : List HistRow} {target : Int} :
    (t.filter (fun r => decide (¬ r.chat_id = target))).filter
      (fun r => decide (r.chat_id = target)) = [] := by
  rw [List.filter_filter]
  have h : ∀ r ∈ t,
      ¬ ((decide (r.chat_id = target) && decide (¬ r.chat_id = target)) = true) := by
    intro r _
    by_cases h2 : r.chat_id = target <;> simp [h2]
  exact List.filter_eq_nil_iff.2 h

end CodeAnalyzer

/-- C7: `/clear_analysis` from a user outside `admin_ids` replies
access-denied and leaves the table untouched; from an admin, with existing
rows for the target chat, it deletes exactly that chat's rows (the target
chat ends empty, every other chat's rows are unchanged) and replies with the
deleted-row count. -/
theorem clear_analysis_spec :
    (∀ (adminIds : List Int) (userId chatId : Int) (arg : Option (Option Int))
        (t : List CodeAnalyzer.HistRow),
        userId ∉ adminIds →
        CodeAnalyzer.clear_analysis_command adminIds userId chatId arg t
          = (.accessDenied, t))
  ∧ (∀ (adminIds : List Int) (userId chatId target : Int)
        (t : List CodeAnalyzer.HistRow),
        userId ∈ adminIds →
        0 < (CodeAnalyzer.rowsForChat t target).length →
        CodeAnalyzer.clear_analysis_command adminIds userId chatId
            (some (some target)) t
          = (.cleared (CodeAnalyzer.rowsForChat t target).length target,
             t.filter (fun r => decide (¬ r.chat_id = target)))
      ∧ (∀ d : Int, ¬ d = target →
          (t.filter (fun r => decide (¬ r.chat_id = target))).filter
            (fun r => decide (r.chat_id = d))
          = t.filter (fun r => decide (r.chat_id = d)))
      ∧ (t.filter (fun r => decide (¬ r.chat_id = target))).filter
          (fun r => decide (r.chat_id = target)) = []) := by
  constructor
  · intro adminIds userId chatId arg t hmem
    unfold CodeAnalyzer.clear_analysis_command
    rw [if_neg hmem]
  · intro adminIds userId chatId target t hmem hcnt
    refine ⟨?_, fun d hd => CodeAnalyzer.filter_ne_then_eq hd,
      CodeAnalyzer.filter_ne_then_self⟩
    unfold CodeAnalyzer.clear_analysis_command CodeAnalyzer.clear_analysis_history
    rw [if_pos hmem]
    simp only
    rw [if_pos hcnt]
    simp only
    rw [if_pos hcnt]

/-- C7 witness: both halves of the theorem at concrete inputs — user 2 is not
in the admin list `[1]`, user 1 is, and the two-chat table has one row for
chat 555. -/
theorem clear_analysis_spec_witness :
    ((2 : Int) ∉ [(1 : Int)]
  ∧ CodeAnalyzer.clear_analysis_command [1] 2 0 (some (some 555))
      [⟨1, 555, "a", "b", 0⟩] = (.accessDenied, [⟨1, 555, "a", "b", 0⟩]))
  ∧ ((1 : Int) ∈ [(1 : Int)]
  ∧ 0 < (CodeAnalyzer.rowsForChat
        [⟨1, 555, "a", "b", 0⟩, ⟨2, 7, "c", "d", 1⟩] 555).length
  ∧ CodeAnalyzer.clear_analysis_command [1] 1 0 (some (some 555))
        [⟨1, 555, "a", "b", 0⟩, ⟨2, 7, "c", "d", 1⟩]
      = (.cleared (CodeAnalyzer.rowsForChat
            [⟨1, 555, "a", "b", 0⟩, ⟨2, 7, "c", "d", 1⟩] 555).length 555,
         ([⟨1, 555, "a", "b", 0⟩, ⟨2, 7, "c", "d", 1⟩] :
            List CodeAnalyzer.HistRow).filter
           (fun r => decide (¬ r.chat_id = 555)))) :=
  ⟨⟨by decide, clear_analysis_spec.1 [1] 2 0 (some (some 555)) _ (by decide)⟩,
   by decide, by decide,
   (clear_analysis_spec.2 [1] 1 0 555 _ (by decide) (by decide)).1⟩

/-! ## C2 — the per-chat rate limiter -/

/-- C2 (the code evaluated at the failing input and its neighbours).  First
conjunct: with NO stored timestamp for the chat, `handle_message` aborts with
an uncaught `UnboundLocalError` — it sends no reply, issues no external call
and writes no timestamp, where the claim says it should proceed with the call
and then write one.  Second conjunct: with a timestamp 2 s old the handler
replies "too fast", makes no call and leaves the stored timestamp unchanged
(as claimed).  Third conjunct: with a timestamp 10 s old it proceeds (one
HTTP attempt), replies with the answer and writes the new timestamp (as
claimed). -/
theorem handle_message_rate_limiter_eval :
    GeminiAI.handle_message ⟨[], ⟨[], [], []⟩⟩ 1 "hi" 100 true
        (fun _ => .exn) (fun s => s) "ctx"
      = (.unboundLocalError, ⟨[], ⟨[], [], []⟩⟩, 0)
  ∧ GeminiAI.handle_message ⟨[(1, 98)], ⟨[], [], []⟩⟩ 1 "hi" 100 true
        (fun _ => .exn) (fun s => s) "ctx"
      = (.tooFast, ⟨[(1, 98)], ⟨[], [], []⟩⟩, 0)
  ∧ GeminiAI.handle_message ⟨[(1, 90)], ⟨[], [], []⟩⟩ 1 "hi" 100 true
        (fun _ => .ok true true "ans" "") (fun s => s) "ctx"
      = (.answered "<b>🤖 SwiftDevBot:</b>\n\nans",
         ⟨[(1, 100)],
          ⟨[("hi", "<b>🤖 SwiftDevBot:</b>\n\nans")], [],
           [⟨1, 1, "hi", "<b>🤖 SwiftDevBot:</b>\n\nans", 100⟩]⟩⟩, 1) := by
  refine ⟨by decide, by decide, by decide⟩

/-! ## C3 — retry policy of the Gemini HTTP call -/

namespace GeminiAI

/-- The fixed failure strings `ask_gemini` can return from the network
section (every one a literal in the source). -/
def cannedFailures : List String :=
  ["❌ Ошибка обработки ответа ИИ.", "❌ ИИ не ответил вовремя.",
   "❌ Ошибка сети ИИ.", "❌ Внутренняя ошибка ИИ.",
   "❌ Ошибка запроса (API ключ?).", "❌ Лимит запросов.",
   "❌ Ошибка сервера ИИ.", "❌ Ошибка ИИ.",
   "❌ ИИ не отвечает после нескольких попыток."]

/-- An attempt outcome that is a failure at the transport/HTTP level (the
retry-relevant failures; an HTTP-200 body is not one). -/
def NetAttempt.isFailure : NetAttempt → Prop
  | .ok _ _ _ _ => False
  | _ => True

theorem statusErrorMsg_canned (code : Nat) :
    statusErrorMsg code ∈ cannedFailures := by
  unfold statusErrorMsg cannedFailures
  split_ifs <;> simp

/-- One-step unfolding of the loop at fuel 2, attempt 0 (the entry point):
attempt 0 may retry, so the retry branches recurse to fuel 1, attempt 1. -/
theorem loop_eq_two (net : Nat → NetAttempt) (fr : String → String) :
    geminiRequestLoop net fr 2 0 =
      match net 0 with
      | .ok jsonOk hasCandidate answer blockReason =>
        if jsonOk then
          if hasCandidate then ⟨answerHeader (fr answer), [], 1, true⟩
          else ⟨"❌ Ответ не сгенерирован (Фильтр: " ++ blockReason ++ ").", [], 1, false⟩
        else ⟨"❌ Ошибка обработки ответа ИИ.", [], 1, false⟩
      | .status code =>
        if (code = 429 ∨ code = 500 ∨ code = 503) ∧ 0 < maxRetries - 1 then
          ⟨(geminiRequestLoop net fr 1 1).reply,
            baseDelayTenths * 2 ^ 0 :: (geminiRequestLoop net fr 1 1).delays,
            (geminiRequestLoop net fr 1 1).attempts + 1,
            (geminiRequestLoop net fr 1 1).ok⟩
        else ⟨statusErrorMsg code, [], 1, false⟩
      | .timeout =>
        ⟨(geminiRequestLoop net fr 1 1).reply,
          baseDelayTenths :: (geminiRequestLoop net fr 1 1).delays,
          (geminiRequestLoop net fr 1 1).attempts + 1,
          (geminiRequestLoop net fr 1 1).ok⟩
      | .netError =>
        ⟨(geminiRequestLoop net fr 1 1).reply,
          baseDelayTenths :: (geminiRequestLoop net fr 1 1).delays,
          (geminiRequestLoop net fr 1 1).attempts + 1,
          (geminiRequestLoop net fr 1 1).ok⟩
      | .exn =>
        ⟨(geminiRequestLoop net fr 1 1).reply,
          baseDelayTenths :: (geminiRequestLoop net fr 1 1).delays,
          (geminiRequestLoop net fr 1 1).attempts + 1,
          (geminiRequestLoop net fr 1 1).ok⟩ := rfl

/-- One-step unfolding of the loop at fuel 1, attempt 1 (the last attempt):
`attempt < max_retries - 1` is false, so no branch sleeps or recurses. -/
theorem loop_eq_one (net : Nat → NetAttempt) (fr : String → String) :
    geminiRequestLoop net fr 1 1 =
      match net 1 with
      | .ok jsonOk hasCandidate answer blockReason =>
        if jsonOk then
          if hasCandidate then ⟨answerHeader (fr answer), [], 1, true⟩
          else ⟨"❌ Ответ не сгенерирован (Фильтр: " ++ blockReason ++ ").", [], 1, false⟩
        else ⟨"❌ Ошибка обработки ответа ИИ.", [], 1, false⟩
      | .status code =>
        if (code = 429 ∨ code = 500 ∨ code = 503) ∧ 1 < maxRetries - 1 then
          ⟨(geminiRequestLoop net fr 0 2).reply,
            baseDelayTenths * 2 ^ 1 :: (geminiRequestLoop net fr 0 2).delays,
            (geminiRequestLoop net fr 0 2).attempts + 1,
            (geminiRequestLoop net fr 0 2).ok⟩
        else ⟨statusErrorMsg code, [], 1, false⟩
      | .timeout => ⟨"❌ ИИ не ответил вовремя.", [], 1, false⟩
      | .netError => ⟨"❌ Ошибка сети ИИ.", [], 1, false⟩
      | .exn => ⟨"❌ Внутренняя ошибка ИИ.", [], 1, false⟩ := rfl

/-- On the last attempt (index `maxRetries - 1 = 1`) no branch sleeps or
recurses: exactly one attempt happens and a failure yields a canned string. -/
theorem lastAttempt_eval (net : Nat → NetAttempt) (fr : String → String) :
    (geminiRequestLoop net fr 1 1).delays = []
  ∧ (geminiRequestLoop net fr 1 1).attempts = 1
  ∧ ((net 1).isFailure → (geminiRequestLoop net fr 1 1).reply ∈ cannedFailures) := by
  rw [loop_eq_one]
  cases hn : net 1 with
  | ok jsonOk hasCandidate answer blockReason =>
    refine ⟨?_, ?_, fun h => h.elim⟩
    · by_cases h1 : jsonOk <;> by_cases h2 : hasCandidate <;> simp [h1, h2]
    · by_cases h1 : jsonOk <;> by_cases h2 : hasCandidate <;> simp [h1, h2]
  | status code =>
    have hc : ¬ ((code = 429 ∨ code = 500 ∨ code = 503) ∧ 1 < maxRetries - 1) := by
      intro hx
      exact absurd hx.2 (by decide)
    refine ⟨?_, ?_, fun _ => ?_⟩ <;> simp only [if_neg hc]
    exact statusErrorMsg_canned code
  | timeout => exact ⟨rfl, rfl, fun _ => by simp [cannedFailures]⟩
  | netError => exact ⟨rfl, rfl, fun _ => by simp [cannedFailures]⟩
  | exn => exact ⟨rfl, rfl, fun _ => by simp [cannedFailures]⟩

end GeminiAI

/-- C3: the Gemini HTTP call makes at most 2 attempts (`max_retries = 2`); a
first-attempt HTTP status in {429, 500, 503} is retried exactly once after an
exponential backoff sleep of `1.5 * 2 ^ 0` seconds (15 tenths); a timeout is
retried once after the flat 1.5 s base delay; two transport/HTTP failures in
a row always end in one of the fixed canned failure strings (never an
exception); and any HTTP status outside {200, 429, 500, 503} is never
retried — one attempt, fixed message for that status. -/
theorem gemini_retry_policy :
    (∀ (net : Nat → GeminiAI.NetAttempt) (fr : String → String),
        (GeminiAI.geminiRequest net fr).attempts ≤ 2)
  ∧ (∀ net fr (code : Nat),
        (code = 429 ∨ code = 500 ∨ code = 503) → net 0 = .status code →
        (GeminiAI.geminiRequest net fr).delays
            = [GeminiAI.baseDelayTenths * 2 ^ 0]
      ∧ (GeminiAI.geminiRequest net fr).attempts = 2)
  ∧ (∀ net fr (code : Nat),
        ¬ (code = 200 ∨ code = 429 ∨ code = 500 ∨ code = 503) →
        net 0 = .status code →
        (GeminiAI.geminiRequest net fr).attempts = 1
      ∧ (GeminiAI.geminiRequest net fr).reply = GeminiAI.statusErrorMsg code)
  ∧ (∀ net fr, net 0 = .timeout →
        (GeminiAI.geminiRequest net fr).delays = [GeminiAI.baseDelayTenths])
  ∧ (∀ net fr, (net 0).isFailure → (net 1).isFailure →
        (GeminiAI.geminiRequest net fr).reply ∈ GeminiAI.cannedFailures) := by
  have hreq : ∀ (net : Nat → GeminiAI.NetAttempt) (fr : String → String),
      GeminiAI.geminiRequest net fr = GeminiAI.geminiRequestLoop net fr 2 0 :=
    fun _ _ => rfl
  refine ⟨?_, ?_, ?_, ?_, ?_⟩
  · intro net fr
    have h2 := (GeminiAI.lastAttempt_eval net fr).2.1
    rw [hreq, GeminiAI.loop_eq_two]
    cases hn : net 0 with
    | ok jsonOk hasCandidate answer blockReason =>
      by_cases h1 : jsonOk <;> by_cases hb : hasCandidate <;> simp [h1, hb]
    | status code =>
      by_cases hc : (code = 429 ∨ code = 500 ∨ code = 503) ∧
          0 < GeminiAI.maxRetries - 1
      · simp only [if_pos hc]
        show (GeminiAI.geminiRequestLoop net fr 1 1).attempts + 1 ≤ 2
        omega
      · simp only [if_neg hc]
        show (1 : Nat) ≤ 2
        decide
    | timeout =>
      show (GeminiAI.geminiRequestLoop net fr 1 1).attempts + 1 ≤ 2
      omega
    | netError =>
      show (GeminiAI.geminiRequestLoop net fr 1 1).attempts + 1 ≤ 2
      omega
    | exn =>
      show (GeminiAI.geminiRequestLoop net fr 1 1).attempts + 1 ≤ 2
      omega
  · intro net fr code hc hn
    have h := GeminiAI.lastAttempt_eval net fr
    have hcond : (code = 429 ∨ code = 500 ∨ code = 503) ∧
        0 < GeminiAI.maxRetries - 1 := ⟨hc, by decide⟩
    rw [hreq, GeminiAI.loop_eq_two, hn]
    simp only [if_pos hcond]
    refine ⟨?_, ?_⟩
    · show GeminiAI.baseDelayTenths * 2 ^ 0 ::
          (GeminiAI.geminiRequestLoop net fr 1 1).delays
        = [GeminiAI.baseDelayTenths * 2 ^ 0]
      rw [h.1]
    · show (GeminiAI.geminiRequestLoop net fr 1 1).attempts + 1 = 2
      rw [h.2.1]
  · intro net fr code hc hn
    have hcond : ¬ ((code = 429 ∨ code = 500 ∨ code = 503) ∧
        0 < GeminiAI.maxRetries - 1) := by
      intro hx
      exact hc (by tauto)
    rw [hreq, GeminiAI.loop_eq_two, hn]
    refine ⟨?_, ?_⟩ <;> simp only [if_neg hcond]
  · intro net fr hn
    rw [hreq, GeminiAI.loop_eq_two, hn]
    show GeminiAI.baseDelayTenths ::
        (GeminiAI.geminiRequestLoop net fr 1 1).delays
      = [GeminiAI.baseDelayTenths]
    rw [(GeminiAI.lastAttempt_eval net fr).1]
  · intro net fr h0 h1
    have h := GeminiAI.lastAttempt_eval net fr
    rw [hreq, GeminiAI.loop_eq_two]
    cases hn : net 0 with
    | ok jsonOk hasCandidate answer blockReason =>
      rw [hn] at h0
      exact h0.elim
    | status code =>
      by_cases hc : (code = 429 ∨ code = 500 ∨ code = 503) ∧
          0 < GeminiAI.maxRetries - 1
      · simp only [if_pos hc]
        exact h.2.2 h1
      · simp only [if_neg hc]
        exact GeminiAI.statusErrorMsg_canned code
    | timeout => exact h.2.2 h1
    | netError => exact h.2.2 h1
    | exn => exact h.2.2 h1

/-- C3 witness: the retry policy applied at a concrete failing endpoint —
HTTP 503 on both attempts — discharging every hypothesis by evaluation. -/
theorem gemini_retry_policy_witness :
    ((503 = 429 ∨ 503 = 500 ∨ 503 = 503)
  ∧ (GeminiAI.geminiRequest (fun _ => .status 503) (fun s => s)).delays
      = [GeminiAI.baseDelayTenths * 2 ^ 0]
  ∧ (GeminiAI.geminiRequest (fun _ => .status 503) (fun s => s)).attempts = 2)
  ∧ ((GeminiAI.NetAttempt.status 404).isFailure
  ∧ (GeminiAI.geminiRequest (fun _ => .status 404) (fun s => s)).reply
      ∈ GeminiAI.cannedFailures) :=
  ⟨⟨by decide,
    gemini_retry_policy.2.1 (fun _ => .status 503) (fun s => s) 503
      (by decide) rfl⟩,
   ⟨by trivial,
    gemini_retry_policy.2.2.2.2 (fun _ => .status 404) (fun s => s)
      (by trivial) (by trivial)⟩⟩

/-! ## C4 — encrypted API-key round trip -/

/-- C4: a key string the admin handler accepts (trimmed length at least 10),
encrypted with the configured Fernet key and stored, decrypts back to that
same string via `_get_decrypted_key`; with no encryption key configured
`_get_decrypted_key` returns `None`; and a corrupted ciphertext or one
produced under a different key also yields `None` (handled, not raised). -/
theorem api_key_roundtrip :
    (∀ (k : GeminiAI.FernetKey) (text : String),
        ¬ (pyStrip text).length < 10 →
        GeminiAI._get_decrypted_key (some k)
          (GeminiAI.process_api_key (some k) text none) = some (pyStrip text))
  ∧ (∀ s, GeminiAI._get_decrypted_key none s = none)
  ∧ (∀ (k : GeminiAI.FernetKey) (junk : String),
        GeminiAI._get_decrypted_key (some k) (some (.garbage junk)) = none)
  ∧ (∀ (k k2 : GeminiAI.FernetKey) (p : String), ¬ k = k2 →
        GeminiAI._get_decrypted_key (some k) (some (.token k2 p)) = none) := by
  refine ⟨?_, ?_, ?_, ?_⟩
  · intro k text h
    simp [GeminiAI.process_api_key, GeminiAI._get_decrypted_key,
      GeminiAI.fernetEncrypt, GeminiAI.fernetDecrypt, h]
  · intro s; rfl
  · intro k junk; rfl
  · intro k k2 p h
    simp [GeminiAI._get_decrypted_key, GeminiAI.fernetDecrypt, h]

/-- C4 witness: a 16-character key round-trips under Fernet key 3; a foreign
token under key 4 decrypts to `None` under key 3. -/
theorem api_key_roundtrip_witness :
    (¬ (pyStrip "AIzaSyExampleKey").length < 10
  ∧ GeminiAI._get_decrypted_key (some 3)
      (GeminiAI.process_api_key (some 3) "AIzaSyExampleKey" none)
      = some (pyStrip "AIzaSyExampleKey"))
  ∧ (¬ (3 : GeminiAI.FernetKey) = 4
  ∧ GeminiAI._get_decrypted_key (some 3) (some (.token 4 "p")) = none) :=
  ⟨⟨by decide, api_key_roundtrip.1 3 "AIzaSyExampleKey" (by decide)⟩,
   ⟨by decide, api_key_roundtrip.2.2.2 3 4 "p" (by decide)⟩⟩

/-! ## C9 — the answer cache is keyed on the question text alone -/

/-- C9: once `gemini_cache` holds an answer for a question, `ask_gemini`
returns that stored answer verbatim for ANY chat id, leaving the database
unchanged and issuing no HTTP attempt — independent of the chat's stored
mode, its conversation history, the endpoint behaviour and the prompt
context, so two calls with the same question from different chats produce
identical results. -/
theorem gemini_cache_ignores_chat :
    ∀ (db : GeminiAI.GeminiDB) (q ans : String) (c1 c2 : Int)
      (net1 net2 : Nat → GeminiAI.NetAttempt) (fr1 fr2 : String → String)
      (pc1 pc2 : String) (now1 now2 : Nat),
      db.cache.lookup q = some ans →
      GeminiAI.ask_gemini true db q c1 net1 fr1 pc1 now1 = ⟨ans, db, 0⟩
    ∧ GeminiAI.ask_gemini true db q c2 net2 fr2 pc2 now2 = ⟨ans, db, 0⟩ := by
  intro db q ans c1 c2 net1 net2 fr1 fr2 pc1 pc2 now1 now2 h
  constructor <;> simp [GeminiAI.ask_gemini, h]

/-- C9 witness: a cache entry written by chat 1 is served verbatim to chats
1 and 2, whose stored modes differ, with zero HTTP attempts. -/
theorem gemini_cache_ignores_chat_witness :
    (GeminiAI.GeminiDB.mk [("q", "a")] [(1, "formal"), (2, "sarcastic")]
        []).cache.lookup "q" = some "a"
  ∧ GeminiAI.ask_gemini true
      ⟨[("q", "a")], [(1, "formal"), (2, "sarcastic")], []⟩ "q" 1
      (fun _ => .exn) (fun s => s) "ctx" 5
      = ⟨"a", ⟨[("q", "a")], [(1, "formal"), (2, "sarcastic")], []⟩, 0⟩
  ∧ GeminiAI.ask_gemini true
      ⟨[("q", "a")], [(1, "formal"), (2, "sarcastic")], []⟩ "q" 2
      (fun _ => .exn) (fun s => s) "ctx" 9
      = ⟨"a", ⟨[("q", "a")], [(1, "formal"), (2, "sarcastic")], []⟩, 0⟩ := by
  refine ⟨by decide, ?_⟩
  exact gemini_cache_ignores_chat ⟨[("q", "a")], [(1, "formal"), (2, "sarcastic")], []⟩
    "q" "a" 1 2 (fun _ => .exn) (fun _ => .exn) (fun s => s) (fun s => s)
    "ctx" "ctx" 5 9 (by decide)

/-! ## C5 — install rollback -/

namespace ModuleManager

/-- The two failure conditions that `return False` from inside the `try`
(no rollback runs): missing source in a local repository, non-200 download. -/
def earlyFail : RepoSource → Bool
  | .localRepo srcDirExists _ _ _ => !srcDirExists
  | .remoteRepo status _ _ _ => status != 200

/-- Whether the copy/download/extract step raises. -/
def stepRaises : RepoSource → Bool
  | .localRepo _ r _ _ => r
  | .remoteRepo _ r _ _ => r

/-- Whether both expected files (`module.py`, `manifest.json`) are present
after the copy/extract. -/
def hasFiles : RepoSource → Bool
  | .localRepo _ _ m mf => m && mf
  | .remoteRepo _ _ m mf => m && mf

end ModuleManager

/-- C5 counterexample.  The claim asserts every failure deletes the freshly
created `modules/<name>` directory.  Two failure paths return from inside the
`try` without reaching either cleanup: a module missing from a local
repository, and a non-200 archive download.  In both cases the call fails
AND the newly created directory still exists afterwards. -/
theorem install_module_rollback_cex :
    ((ModuleManager._install_module (some "m") (some "file:///repo") false
        (.localRepo false false false false) "e").ok = false
  ∧ (ModuleManager._install_module (some "m") (some "file:///repo") false
        (.localRepo false false false false) "e").dirExistsAfter = true)
  ∧ ((ModuleManager._install_module (some "m") (some "https://r.example") false
        (.remoteRepo 404 false false false) "e").ok = false
  ∧ (ModuleManager._install_module (some "m") (some "https://r.example") false
        (.remoteRepo 404 false false false) "e").dirExistsAfter = true) := by
  exact ⟨⟨rfl, rfl⟩, ⟨rfl, rfl⟩⟩

/-- C5 (amended): `_install_module` succeeds exactly when the source is
available, no copy/download/extract step raises, and both expected files are
present — and then `modules/<name>` exists; a pre-existing directory makes it
fail without touching anything; the missing-expected-files check and any
exception during copy/download/extract do delete the directory; but the
module-not-found-in-local-repo and non-200-download failures return early
and leave the freshly created directory behind. -/
theorem install_module_spec :
    (∀ (name url : String) (src : ModuleManager.RepoSource) (e : String),
        ModuleManager._install_module (some name) (some url) true src e
          = ⟨false, "Модуль " ++ name ++ " уже установлен", true⟩)
  ∧ (∀ (name url : String) (src : ModuleManager.RepoSource) (e : String),
        (ModuleManager._install_module (some name) (some url) false src e).ok = true ↔
        (ModuleManager.earlyFail src = false ∧ ModuleManager.stepRaises src = false
          ∧ ModuleManager.hasFiles src = true))
  ∧ (∀ (name url : String) (src : ModuleManager.RepoSource) (e : String),
        (ModuleManager._install_module (some name) (some url) false src e).ok = true →
        (ModuleManager._install_module (some name) (some url) false src e).dirExistsAfter
          = true)
  ∧ (∀ (name url : String) (src : ModuleManager.RepoSource) (e : String),
        ModuleManager.earlyFail src = false →
        (ModuleManager.stepRaises src = true ∨ ModuleManager.hasFiles src = false) →
        (ModuleManager._install_module (some name) (some url) false src e).ok = false
      ∧ (ModuleManager._install_module (some name) (some url) false src e).dirExistsAfter
          = false)
  ∧ (∀ (name url : String) (src : ModuleManager.RepoSource) (e : String),
        ModuleManager.earlyFail src = true →
        (ModuleManager._install_module (some name) (some url) false src e).ok = false
      ∧ (ModuleManager._install_module (some name) (some url) false src e).dirExistsAfter
          = true) := by
  refine ⟨fun name url src e => rfl, ?_, ?_, ?_, ?_⟩
  · intro name url src e
    cases src with
    | localRepo s r m mf =>
      cases s <;> cases r <;> cases m <;> cases mf <;>
        simp [ModuleManager._install_module, ModuleManager.earlyFail,
          ModuleManager.stepRaises, ModuleManager.hasFiles]
    | remoteRepo status r m mf =>
      by_cases hs : status = 200 <;> cases r <;> cases m <;> cases mf <;>
        simp [ModuleManager._install_module, ModuleManager.earlyFail,
          ModuleManager.stepRaises, ModuleManager.hasFiles, hs]
  · intro name url src e
    cases src with
    | localRepo s r m mf =>
      cases s <;> cases r <;> cases m <;> cases mf <;>
        simp [ModuleManager._install_module]
    | remoteRepo status r m mf =>
      by_cases hs : status = 200 <;> cases r <;> cases m <;> cases mf <;>
        simp [ModuleManager._install_module, hs]
  · intro name url src e h1 h2
    cases src with
    | localRepo s r m mf =>
      cases s <;> cases r <;> cases m <;> cases mf <;>
        simp_all [ModuleManager._install_module, ModuleManager.earlyFail,
          ModuleManager.stepRaises, ModuleManager.hasFiles]
    | remoteRepo status r m mf =>
      by_cases hs : status = 200 <;> cases r <;> cases m <;> cases mf <;>
        simp_all [ModuleManager._install_module, ModuleManager.earlyFail,
          ModuleManager.stepRaises, ModuleManager.hasFiles, hs]
  · intro name url src e h1
    cases src with
    | localRepo s r m mf =>
      cases s <;> cases r <;> cases m <;> cases mf <;>
        simp_all [ModuleManager._install_module, ModuleManager.earlyFail]
    | remoteRepo status r m mf =>
      by_cases hs : status = 200 <;> cases r <;> cases m <;> cases mf <;>
        simp_all [ModuleManager._install_module, ModuleManager.earlyFail, hs]

/-- C5 witness: the amended theorem at concrete inputs — a successful local
install, a rolled-back missing-files install, and an early-return download
failure that leaves the directory. -/
theorem install_module_spec_witness :
    ((ModuleManager._install_module (some "m") (some "u") false
        (.localRepo true false true true) "e").ok = true
  ∧ (ModuleManager._install_module (some "m") (some "u") false
        (.localRepo true false true true) "e").dirExistsAfter = true)
  ∧ (ModuleManager.earlyFail (.localRepo true false true false) = false
  ∧ (ModuleManager.stepRaises (.localRepo true false true false) = true
      ∨ ModuleManager.hasFiles (.localRepo true false true false) = false)
  ∧ (ModuleManager._install_module (some "m") (some "u") false
        (.localRepo true false true false) "e").ok = false
  ∧ (ModuleManager._install_module (some "m") (some "u") false
        (.localRepo true false true false) "e").dirExistsAfter = false)
  ∧ (ModuleManager.earlyFail (.remoteRepo 500 false false false) = true
  ∧ (ModuleManager._install_module (some "m") (some "u") false
        (.remoteRepo 500 false false false) "e").ok = false
  ∧ (ModuleManager._install_module (some "m") (some "u") false
        (.remoteRepo 500 false false false) "e").dirExistsAfter = true) :=
  ⟨⟨rfl, install_module_spec.2.2.1 "m" "u" (.localRepo true false true true) "e" rfl⟩,
   ⟨rfl, Or.inr rfl,
    install_module_spec.2.2.2.1 "m" "u" (.localRepo true false true false) "e"
      rfl (Or.inr rfl)⟩,
   ⟨rfl,
    (install_module_spec.2.2.2.2 "m" "u" (.remoteRepo 500 false false false) "e" rfl).1,
    (install_module_spec.2.2.2.2 "m" "u" (.remoteRepo 500 false false false) "e" rfl).2⟩⟩

/-! ## C6 — the `/weather` command and inline arguments -/

/-- C6 counterexample.  With the module enabled and a non-empty API key, the
handler for `/weather Paris` replies with the main-menu welcome message — it
never parses inline arguments — and that message contains neither the
substring "Paris" nor a temperature field. -/
theorem weather_command_inline_args_cex :
    Weather.weather_command true [] 42 "valid-api-key" "/weather Paris"
      = .welcomeMenu
  ∧ Weather.strContains
      (Weather.replyText
        (Weather.weather_command true [] 42 "valid-api-key" "/weather Paris"))
      "Paris" = false
  ∧ Weather.strContains
      (Weather.replyText
        (Weather.weather_command true [] 42 "valid-api-key" "/weather Paris"))
      "Температура" = false := by
  exact ⟨rfl, by decide, by decide⟩

/-- C6 (amended): `weather_command` ignores the message text entirely — its
reply is the same for every argument string; with a valid (non-empty) API key
it replies with the welcome menu, which invites typing a city name
("введите название города"); with an empty API key it prompts for key
configuration instead.  The formatted message containing "Paris" and a
temperature field is produced by `process_weather_message` once "Paris"
arrives as its own message.  `get_user_city` never reports "no default": with
nothing stored it returns the fixed fallback "Москва". -/
theorem weather_command_amended :
    (∀ (enabled : Bool) (adminIds : List Int) (userId : Int)
        (apiKey t1 t2 : String),
        Weather.weather_command enabled adminIds userId apiKey t1
          = Weather.weather_command enabled adminIds userId apiKey t2)
  ∧ (∀ (adminIds : List Int) (userId : Int) (apiKey text : String),
        ¬ apiKey = "" →
        Weather.weather_command true adminIds userId apiKey text = .welcomeMenu)
  ∧ Weather.strContains (Weather.replyText .welcomeMenu)
      "введите название города" = true
  ∧ (∀ (adminIds : List Int) (userId : Int) (text : String),
        Weather.weather_command true adminIds userId "" text = .apiKeyPrompt)
  ∧ (∃ msg,
      (Weather.process_weather_message (some (2, 3, "Paris"))
          [("temp", "18"), ("feels_like", "17"), ("humidity", "60"),
           ("pressure", "1013"), ("wind_speed", "3"), ("description", "clear")]
          [] 1000 "Paris" "12:00").1 = .weatherReport msg
    ∧ Weather.strContains msg "Paris" = true
    ∧ Weather.strContains msg "Температура" = true)
  ∧ (∀ (prefs : List (Int × String)) (userId : Int),
        (prefs.lookup userId).isNone →
        Weather.get_user_city prefs userId = "Москва") := by
  refine ⟨fun _ _ _ _ _ _ => rfl, ?_, by decide, fun _ _ _ => rfl,
    ⟨_, rfl, by decide, by decide⟩, ?_⟩
  · intro adminIds userId apiKey text h
    simp [Weather.weather_command, Weather.check_permissions, h]
  · intro prefs userId h
    unfold Weather.get_user_city
    cases hl : prefs.lookup userId with
    | none => rfl
    | some v => rw [hl] at h; exact absurd h (by simp)

/-- C6 witness: the amended theorem at concrete inputs — key "k" is
non-empty, and an empty preference store has no entry for user 9. -/
theorem weather_command_amended_witness :
    (¬ ("k" : String) = ""
  ∧ Weather.weather_command true [] 9 "k" "/weather Paris" = .welcomeMenu)
  ∧ ((([] : List (Int × String)).lookup (9 : Int)).isNone
  ∧ Weather.get_user_city [] 9 = "Москва") :=
  ⟨⟨by decide, weather_command_amended.2.1 [] 9 "k" "/weather Paris" (by decide)⟩,
   ⟨by decide, weather_command_amended.2.2.2.2.2 [] 9 (by decide)⟩⟩

/-! ## C8 — `/yt` and the waiting-for-input state -/

/-- C8: with the module initialised and the database available, `/yt` with
inline arguments processes the URL directly and ends idle — it never enters
the waiting state, whatever state it started in; `/yt` with no arguments
prompts and transitions to `waiting_for_url`; and the next plain-text message
in that state (non-empty once stripped, which every deliverable Telegram text
message is) is consumed as the URL and the state is exited. -/
theorem yt_waiting_state_spec :
    (∀ (text : String) (st : Yt.YtState),
        ¬ pyStrip (pyReplace text "/yt" "") = "" →
        Yt.yt_command true true text st
          = (.chooseFormat (pyStrip (pyReplace text "/yt" "")), .idle))
  ∧ (∀ (text : String) (st : Yt.YtState),
        pyStrip (pyReplace text "/yt" "") = "" →
        Yt.yt_command true true text st = (.promptUrl, .waitingForUrl))
  ∧ (∀ (text : String), ¬ pyStrip text = "" →
        Yt.process_url_input text = (.chooseFormat (pyStrip text), .idle)) := by
  refine ⟨?_, ?_, ?_⟩
  · intro text st h
    simp [Yt.yt_command, Yt.process_url, h]
  · intro text st h
    simp [Yt.yt_command, h]
  · intro text h
    simp [Yt.process_url_input, Yt.process_url, h]

/-- C8 witness: `/yt https://example.com/v` goes straight to the format
keyboard from the waiting state itself (never re-entering it), `/yt` alone
enters the waiting state, and the follow-up message exits it. -/
theorem yt_waiting_state_spec_witness :
    (¬ pyStrip (pyReplace "/yt https://example.com/v" "/yt" "") = ""
  ∧ Yt.yt_command true true "/yt https://example.com/v" .waitingForUrl
      = (.chooseFormat (pyStrip (pyReplace "/yt https://example.com/v" "/yt" "")),
         .idle))
  ∧ (pyStrip (pyReplace "/yt" "/yt" "") = ""
  ∧ Yt.yt_command true true "/yt" .idle = (.promptUrl, .waitingForUrl))
  ∧ (¬ pyStrip "https://example.com/v" = ""
  ∧ Yt.process_url_input "https://example.com/v"
      = (.chooseFormat (pyStrip "https://example.com/v"), .idle)) :=
  ⟨⟨by decide,
    yt_waiting_state_spec.1 "/yt https://example.com/v" .waitingForUrl (by decide)⟩,
   ⟨by decide, yt_waiting_state_spec.2.1 "/yt" .idle (by decide)⟩,
   ⟨by decide, yt_waiting_state_spec.2.2 "https://example.com/v" (by decide)⟩⟩

/-! ## C10 — the weather cache freshness window -/

/-- C10: a cache entry younger than 1800 s with a non-empty payload (every
payload the module stores carries at least `city_name`) is served by
`get_current_weather` unchanged with zero API requests; an entry aged 1800 s
or more is treated as absent by `get_cached_weather`; and a payload stored
with `set_cached_weather` reads straight back. -/
theorem weather_cache_spec :
    (∀ (gc : Option (Int × Int × String)) (fd : Weather.WDict)
        (cache : Weather.WCache) (now : Nat) (city : String)
        (e : Weather.CacheEntry),
        cache.lookup (Weather.get_cache_key city "current") = some e →
        now - e.timestamp < Weather.CACHE_LIFETIME →
        ¬ e.data = [] →
        Weather.get_current_weather gc fd cache now city = (e.data, cache, 0))
  ∧ (∀ (cache : Weather.WCache) (now : Nat) (city ftype : String)
        (e : Weather.CacheEntry),
        cache.lookup (Weather.get_cache_key city ftype) = some e →
        Weather.CACHE_LIFETIME ≤ now - e.timestamp →
        Weather.get_cached_weather cache now city ftype = none)
  ∧ (∀ (cache : Weather.WCache) (now : Nat) (city ftype : String)
        (d : Weather.WDict),
        Weather.get_cached_weather
          (Weather.set_cached_weather cache now city d ftype) now city ftype
          = some d) := by
  refine ⟨?_, ?_, ?_⟩
  · intro gc fd cache now city e hl hfresh hne
    have hcached : Weather.get_cached_weather cache now city "current"
        = some e.data := by
      simp [Weather.get_cached_weather, hl, hfresh]
    unfold Weather.get_current_weather
    rw [hcached]
    have : e.data.isEmpty = false := by
      cases hd : e.data with
      | nil => exact absurd hd hne
      | cons a l => rfl
    simp [this]
  · intro cache now city ftype e hl hstale
    simp [Weather.get_cached_weather, hl, Nat.not_lt.2 hstale]
  · intro cache now city ftype d
    simp [Weather.get_cached_weather, Weather.set_cached_weather,
      Weather.CACHE_LIFETIME]

/-- C10 witness: a 100-second-old entry for "Paris" is served with zero API
requests; a 1800-second-old entry is treated as absent; and a stored payload
reads straight back. -/
theorem weather_cache_spec_witness :
    (([("paris:current", ⟨[("temp", "1")], 100⟩)] :
        Weather.WCache).lookup (Weather.get_cache_key "Paris" "current")
      = some ⟨[("temp", "1")], 100⟩
  ∧ 200 - 100 < Weather.CACHE_LIFETIME
  ∧ ¬ ([("temp", "1")] : Weather.WDict) = []
  ∧ Weather.get_current_weather none [] [("paris:current", ⟨[("temp", "1")], 100⟩)]
      200 "Paris" = ([("temp", "1")], [("paris:current", ⟨[("temp", "1")], 100⟩)], 0))
  ∧ (Weather.CACHE_LIFETIME ≤ 1900 - 100
  ∧ Weather.get_cached_weather [("paris:current", ⟨[("temp", "1")], 100⟩)]
      1900 "Paris" "current" = none)
  ∧ Weather.get_cached_weather
      (Weather.set_cached_weather [] 7 "Paris" [("temp", "2")] "current")
      7 "Paris" "current" = some [("temp", "2")] :=
  ⟨⟨by decide, by decide, by decide,
    weather_cache_spec.1 none [] [("paris:current", ⟨[("temp", "1")], 100⟩)]
      200 "Paris" ⟨[("temp", "1")], 100⟩ (by decide) (by decide) (by decide)⟩,
   ⟨by decide,
    weather_cache_spec.2.1 [("paris:current", ⟨[("temp", "1")], 100⟩)]
      1900 "Paris" "current" ⟨[("temp", "1")], 100⟩ (by decide) (by decide)⟩,
   weather_cache_spec.2.2 [] 7 "Paris" "current" [("temp", "2")]⟩
